import Mathlib

/-!
Shallow embedding of the Stronghold client interface (src/client/src/interface.rs)
together with spec-modelled definitions for the actor handlers that the interface
sends messages to (Registry, SecureClient, Snapshot and Network actors, which live
outside the provided source tree).  Pure data is modelled with lists and naturals;
every interface method of the Rust code becomes an explicit state-passing function
on a global system state.  A Rust panic (reachable through slice-length mismatch in
copy_from_slice) is modelled by a dedicated outcome constructor.
-/

set_option autoImplicit false

deriving instance DecidableEq for Except

namespace Stronghold

/-- Opaque byte sequences (vault paths, record paths, payloads, keys). -/
abbrev Bytes := List Nat

/-- Modelled from the spec: Identity is derived deterministically and
collision-resistantly from a path byte sequence plus a disambiguation seed
(engine ClientId.load_from_path is not part of the provided sources).  The
derivation is modelled as the injective pairing of the two inputs, which keeps
both determinism and collision freedom. -/
def loadFromPath (data : Bytes) (path : Bytes) : Bytes × Bytes :=
  (data, path)

/-- Client identity token, the key of the Registry directory. -/
abbrev ClientId := Bytes × Bytes

/-- Modelled from the spec: Location is a discriminated address into the secret
space, Generic(vault_path, record_path); the crate-level Location type is not in
the provided sources. -/
inductive Location where
  | generic (vaultPath : Bytes) (recordPath : Bytes)
deriving DecidableEq, Repr

/-- The vault path component of a location (Location::vault_path). -/
def Location.vaultPath : Location → Bytes
  | .generic vp _ => vp

/-- The record path component of a location. -/
def Location.recordPath : Location → Bytes
  | .generic _ rp => rp

/-- Record hints are small opaque tags. -/
abbrev RecordHint := Bytes

section AssocHelpers

variable {κ α : Type} [DecidableEq κ]

/-- First-match lookup in an association list. -/
def lookupKey : List (κ × α) → κ → Option α
  | [], _ => none
  | (k, a) :: rest, q => if k = q then some a else lookupKey rest q

/-- Replace the binding of a key if present, otherwise append it at the end, so
that insertion order is preserved. -/
def insertReplace : List (κ × α) → κ → α → List (κ × α)
  | [], q, b => [(q, b)]
  | (k, a) :: rest, q, b => if k = q then (q, b) :: rest else (k, a) :: insertReplace rest q b

/-- Apply a function to the binding of a key, leaving the key set unchanged. -/
def updateKey : List (κ × α) → κ → (α → α) → List (κ × α)
  | [], _, _ => []
  | (k, a) :: rest, q, f => if k = q then (k, f a) :: rest else (k, a) :: updateKey rest q f

end AssocHelpers

/-- Modelled from the spec: a record is a payload plus a non-confidential hint,
addressed by its record path inside a vault. -/
abbrev VaultRecords := List (Bytes × (Bytes × RecordHint))

/-- Modelled from the spec: the SecureWorker owns its vaults (vault_path to
records) and an insecure key-value store; get_full_state returns exactly this
structure and reload_from replaces it. -/
structure SecureClientState where
  vaults : List (Bytes × VaultRecords)
  store : List (Bytes × Bytes)
deriving DecidableEq, Repr

/-- The state of a freshly spawned secure client: no vaults, empty store. -/
def SecureClientState.empty : SecureClientState :=
  { vaults := [], store := [] }

/-- Modelled from the spec: check_vault reports whether a vault exists at the
given vault path. -/
def SecureClientState.checkVault (st : SecureClientState) (vaultPath : Bytes) : Bool :=
  (lookupKey st.vaults vaultPath).isSome

/-- Modelled from the spec: create_vault is idempotent, creating the vault if
absent and a no-op if present. -/
def SecureClientState.createVault (st : SecureClientState) (loc : Location) : SecureClientState :=
  if st.checkVault loc.vaultPath then st
  else { st with vaults := st.vaults ++ [(loc.vaultPath, [])] }

/-- Vault-level application errors. -/
inductive VaultError where
  | vaultDoesNotExist
deriving DecidableEq, Repr

/-- Modelled from the spec: write_vault writes or overwrites the record at the
location and fails with a VaultError if the underlying vault is absent. -/
def SecureClientState.writeToVault (st : SecureClientState) (loc : Location)
    (payload : Bytes) (hint : RecordHint) : Except VaultError SecureClientState :=
  match lookupKey st.vaults loc.vaultPath with
  | none => .error .vaultDoesNotExist
  | some records =>
    .ok { st with
          vaults := insertReplace st.vaults loc.vaultPath
            (insertReplace records loc.recordPath (payload, hint)) }

/-- Procedure outcomes: either an output value or an error-carrying variant
(ProcResult::Error of the source). -/
inductive ProcResult where
  | data (output : Bytes)
  | error (msg : String)
deriving DecidableEq, Repr

/-- Modelled from the spec: a procedure is a cryptographic operation executed
against the worker state; its execution yields an updated worker state and
either a result or an internal failure, which the CallProcedure handler reports
as the error arm of its reply. -/
structure Procedure where
  run : SecureClientState → SecureClientState × Except String ProcResult

/-- The conversion applied by the interface: unwrap_or_else(ProcResult::Error)
turns a failed procedure reply into the ProcResult error variant. -/
def convertProc : Except String ProcResult → ProcResult
  | .ok r => r
  | .error msg => ProcResult.error msg

/-- A worker as seen through its mailbox: its secure state plus whether its
mailbox is reachable (an unreachable worker makes every send fail with a
mailbox error). -/
structure Worker where
  responsive : Bool
  state : SecureClientState
deriving DecidableEq, Repr

/-- A freshly spawned worker with an empty state and a live mailbox. -/
def Worker.fresh : Worker :=
  { responsive := true, state := SecureClientState.empty }

/-- The generic error envelope of the interface: mailbox failure, target not
spawned, or a wrapped application error. -/
inductive Error (E : Type) where
  | actorMailbox
  | actorNotSpawned
  | inner (e : E)
deriving DecidableEq, Repr

/-- Errors when sending a request to a remote peer: outbound transport failure
or an error on the remote side. -/
inductive SendRequestError (E : Type) where
  | outboundFailure
  | inner (e : E)
deriving DecidableEq, Repr

/-- Distinguished error variants for snapshot reading. -/
inductive ReadSnapshotError where
  | ioError
  | decryptFailure
  | identityNotFound
deriving DecidableEq, Repr

/-- Distinguished error variants for snapshot writing. -/
inductive WriteSnapshotError where
  | ioError
deriving DecidableEq, Repr

/-- Vault errors reported by a remote Stronghold. -/
abbrev RemoteVaultError := VaultError

/-- Firewall rules: modelled from the spec as an Allow, Reject or Ask class
decision value (the p2p Rule type is not in the provided sources). -/
inductive Rule where
  | allowAll
  | rejectAll
  | ask
deriving DecidableEq, Repr

/-- Direction a firewall rule is scoped to. -/
inductive RuleDirection where
  | inbound
  | outbound
deriving DecidableEq, Repr

/-- Remote peer identity. -/
abbrev PeerId := Nat

/-- Modelled from the spec: the network actor owns a firewall rule table with
at most one default rule per direction and at most one rule per peer per
direction, plus the reachable remote peers.  A peer present in remotes answers
requests with its own worker state (transport and remote firewall approval are
abstracted into reachability); a peer absent from remotes yields an outbound
failure. -/
structure NetworkState where
  defaultInbound : Option Rule
  defaultOutbound : Option Rule
  peerRules : List ((PeerId × RuleDirection) × Rule)
  remotes : List (PeerId × SecureClientState)
deriving DecidableEq, Repr

/-- Identifier of a snapshot file on disk: optional filename and optional
directory path. -/
abbrev SnapPath := Option String × Option String

/-- Modelled from the spec: a persisted snapshot is the accumulated
identity-to-state structure sealed under the 32-byte key supplied at write
time; reading with a different key fails rather than decrypting garbage. -/
structure SnapshotFile where
  key : Bytes
  entries : List (ClientId × SecureClientState)
deriving DecidableEq, Repr

/-- The whole observable system state: the Registry directory and current
target, the snapshot actor accumulation and the on-disk snapshot files, and the
optional network actor state. -/
structure SysState where
  clients : List (ClientId × Worker)
  target : Option ClientId
  snapshotAccum : List (ClientId × SecureClientState)
  snapshotFiles : List (SnapPath × SnapshotFile)
  network : Option NetworkState
deriving DecidableEq, Repr

/-- The state before any actor has been spawned. -/
def SysState.initial : SysState :=
  { clients := [], target := none, snapshotAccum := [], snapshotFiles := [], network := none }

/-- The outcome of running one interface method: either a normal return or a
Rust panic escaping the method (copy_from_slice aborts the task when the
source slice length differs from the destination length). -/
inductive RunResult (α : Type) where
  | panicked (msg : String)
  | ret (val : α)
deriving DecidableEq, Repr

/-- The panic message produced by copy_from_slice on a length mismatch. -/
def copySliceMsg : String :=
  "source slice length does not match destination slice length"

/-- Extract the normal return of an interface call outcome, when it did not
panic. -/
def RunResult.retOf {a : Type} : RunResult a → Option a
  | .ret v => some v
  | .panicked _ => none

/-- One request message sent to a secure client (local or remote), recorded in
the order the interface issues the round trips. -/
inductive SecureMsg where
  | checkVault (vaultPath : Bytes)
  | createVault (loc : Location)
  | writeToVault (loc : Location) (payload : Bytes) (hint : RecordHint)
  | writeToRemoteVault (loc : Location) (payload : Bytes) (hint : RecordHint)
deriving DecidableEq, Repr

/-- Modelled from the spec: the Registry spawn handler inserts a fresh worker
for the identity if none exists, keeping identities unique; spawning an already
registered identity leaves the directory unchanged.  New workers are appended,
so GetAllClients returns workers in spawn order. -/
def spawnClient (s : SysState) (id : ClientId) : SysState :=
  match lookupKey s.clients id with
  | some _ => s
  | none => { s with clients := s.clients ++ [(id, Worker.fresh)] }

/-- Modelled from the spec: the Registry switch-target handler sets the current
target and returns the worker handle when the identity was spawned, and reports
failure without touching any state otherwise; it never auto-spawns.  The
interface maps the failure to the not-spawned error (switch_client). -/
def switchClient (s : SysState) (id : ClientId) : SysState × Except (Error Empty) Worker :=
  match lookupKey s.clients id with
  | some w => ({ s with target := some id }, .ok w)
  | none => (s, .error .actorNotSpawned)

/-- Modelled from the spec: the Registry get-target handler resolves the single
current target identity to its worker handle, if both exist (target of the
interface). -/
def getTarget (s : SysState) : Option (ClientId × Worker) :=
  match s.target with
  | none => none
  | some id => (lookupKey s.clients id).map (fun w => (id, w))

/-- Replace the secure state of the worker registered under an identity. -/
def updateWorker (s : SysState) (id : ClientId) (st : SecureClientState) : SysState :=
  { s with clients := updateKey s.clients id (fun w => { w with state := st }) }

/-- Embedding of spawn_stronghold_actor: derive the identity from the client
path, ask the Registry to spawn it, then switch the current target to it.  The
Rust method only surfaces mailbox errors (the not-spawned arm is unreachable
right after a spawn). -/
def spawnStrongholdActor (s : SysState) (clientPath : Bytes) : SysState × Except Unit Unit :=
  let id := loadFromPath clientPath clientPath
  let s1 := spawnClient s id
  match switchClient s1 id with
  | (s2, .ok _) => (s2, .ok ())
  | (s2, .error _) => (s2, .error ())

/-- Embedding of init_stronghold_system: start a fresh Registry over the
ambient snapshot files on disk and spawn the first client actor. -/
def initStrongholdSystem (files : List (SnapPath × SnapshotFile)) (clientPath : Bytes) :
    SysState × Except Unit Unit :=
  spawnStrongholdActor { SysState.initial with snapshotFiles := files } clientPath

/-- Embedding of switch_actor_target: derive the identity from the client path
and ask the Registry to switch the current target to it. -/
def switchActorTarget (s : SysState) (clientPath : Bytes) : SysState × Except (Error Empty) Unit :=
  let id := loadFromPath clientPath clientPath
  match switchClient s id with
  | (s1, .ok _) => (s1, .ok ())
  | (s1, .error .actorMailbox) => (s1, .error .actorMailbox)
  | (s1, .error .actorNotSpawned) => (s1, .error .actorNotSpawned)
  | (s1, .error (.inner e)) => (s1, .error (.inner e))

/-- Embedding of write_to_vault: resolve the current target, send CheckVault,
send CreateVault only when the check reported absence, then send WriteToVault.
The third component records the messages issued, in order. -/
def writeToVault (s : SysState) (loc : Location) (payload : Bytes) (hint : RecordHint) :
    SysState × Except (Error VaultError) Unit × List SecureMsg :=
  match getTarget s with
  | none => (s, .error .actorNotSpawned, [])
  | some (id, w) =>
    if w.responsive then
      let exists0 := w.state.checkVault loc.vaultPath
      let st1 := if exists0 then w.state else w.state.createVault loc
      let trace := SecureMsg.checkVault loc.vaultPath ::
        ((if exists0 then [] else [SecureMsg.createVault loc]) ++
          [SecureMsg.writeToVault loc payload hint])
      match SecureClientState.writeToVault st1 loc payload hint with
      | .ok st2 => (updateWorker s id st2, .ok (), trace)
      | .error e => (updateWorker s id st1, .error (.inner e), trace)
    else (s, .error .actorMailbox, [SecureMsg.checkVault loc.vaultPath])

/-- Embedding of runtime_exec: resolve the current target, send CallProcedure
and turn a failed procedure reply into the ProcResult error variant via
unwrap_or_else, so the method returns Ok whenever the mailbox round trip
succeeded. -/
def runtimeExec (s : SysState) (p : Procedure) : SysState × Except (Error Empty) ProcResult :=
  match getTarget s with
  | none => (s, .error .actorNotSpawned)
  | some (id, w) =>
    if w.responsive then
      let r := p.run w.state
      (updateWorker s id r.1, .ok (convertProc r.2))
    else (s, .error .actorMailbox)

/-- Modelled from the spec: the snapshot actor read handler decrypts the file
at the given path under the supplied key — failing with a distinguished error
when the file is missing or the key does not match — and locates the sub-state
recorded for the requested identity (the former identity when one is supplied,
supporting the re-labelling protocol). -/
def readFromSnapshot (files : List (SnapPath × SnapshotFile)) (key : Bytes)
    (filename : Option String) (path : Option String) (id : ClientId) (fid : Option ClientId) :
    Except ReadSnapshotError (ClientId × SecureClientState) :=
  match lookupKey files (filename, path) with
  | none => .error .ioError
  | some file =>
    if file.key = key then
      let lid := fid.getD id
      match lookupKey file.entries lid with
      | some data => .ok (lid, data)
      | none => .error .identityNotFound
    else .error .decryptFailure

/-- The target-resolution step of read_snapshot: with a former client path the
Registry target is switched to the former identity (its worker must already
exist); without one the current target is used. -/
def resolveReadTarget (s : SysState) (formerClientId : Option ClientId) :
    SysState × Except (Error ReadSnapshotError) (ClientId × Worker) :=
  match formerClientId with
  | some fid =>
    match lookupKey s.clients fid with
    | some w => ({ s with target := some fid }, .ok (fid, w))
    | none => (s, .error .actorNotSpawned)
  | none =>
    match getTarget s with
    | some tw => (s, .ok tw)
    | none => (s, .error .actorNotSpawned)

/-- Embedding of read_snapshot: derive the identities, resolve the target
(switching to the former identity when supplied), copy the key data into the
32-byte key buffer — a panic when the length differs —, ask the snapshot actor
to read and decrypt the sub-state, and reload it into the resolved worker. -/
def readSnapshot (s : SysState) (clientPath : Bytes) (formerClientPath : Option Bytes)
    (keydata : Bytes) (filename : Option String) (path : Option String) :
    RunResult (SysState × Except (Error ReadSnapshotError) Unit) :=
  let clientId := loadFromPath clientPath clientPath
  let formerClientId := formerClientPath.map (fun cp => loadFromPath cp cp)
  match resolveReadTarget s formerClientId with
  | (s1, .error e) => .ret (s1, .error e)
  | (s1, .ok (tid, w)) =>
    if keydata.length = 32 then
      match readFromSnapshot s1.snapshotFiles keydata filename path clientId formerClientId with
      | .error e => .ret (s1, .error (.inner e))
      | .ok (_, data) =>
        if w.responsive then .ret (updateWorker s1 tid data, .ok ())
        else .ret (s1, .error .actorMailbox)
    else .panicked copySliceMsg

/-- The gather loop of write_all_to_snapshot: for each registered worker in
Registry order, send GetData and fill the reply into the snapshot actor
accumulation; stop at the first unreachable worker.  Returns the accumulation,
whether every worker answered, and the identities polled in order. -/
def gatherStates : List (ClientId × Worker) → List (ClientId × SecureClientState) →
    List (ClientId × SecureClientState) × Bool × List ClientId
  | [], acc => (acc, true, [])
  | (id, w) :: rest, acc =>
    if w.responsive then
      let r := gatherStates rest (insertReplace acc id w.state)
      (r.1, r.2.1, id :: r.2.2)
    else (acc, false, [id])

/-- Embedding of write_all_to_snapshot: ask the Registry for all clients, copy
the key data into the 32-byte key buffer — a panic when the length differs —,
gather every worker state into the snapshot actor sequentially, and only after
every worker answered ask the snapshot actor to seal the accumulated structure
under the key and persist it at the named path.  The last component records
the identities polled in order. -/
def writeAllToSnapshot (s : SysState) (keydata : Bytes)
    (filename : Option String) (path : Option String) :
    RunResult (SysState × Except (Error WriteSnapshotError) Unit × List ClientId) :=
  let clients := s.clients
  if keydata.length = 32 then
    match gatherStates clients s.snapshotAccum with
    | (acc, true, trace) =>
      let file : SnapshotFile := { key := keydata, entries := acc }
      let s1 := { s with snapshotAccum := acc
                         snapshotFiles := insertReplace s.snapshotFiles (filename, path) file }
      .ret (s1, .ok (), trace)
    | (acc, false, trace) =>
      .ret ({ s with snapshotAccum := acc }, .error .actorMailbox, trace)
  else .panicked copySliceMsg

/-- Modelled from the spec: applying a firewall rule to a list of peers sets
the peer-specific entry for the inbound direction, one peer at a time, exactly
as the loop of set_firewall_rule sends one SetFirewallRule message per peer. -/
def applyPeerRules (rule : Rule) : NetworkState → List PeerId → NetworkState
  | ns, [] => ns
  | ns, peer :: rest =>
    applyPeerRules rule
      { ns with peerRules := insertReplace ns.peerRules (peer, RuleDirection.inbound) rule }
      rest

/-- Embedding of set_firewall_rule: resolve the network actor, replace the
default inbound rule when set_default is true, then set the peer-specific
inbound rule for every peer in the list. -/
def setFirewallRule (s : SysState) (rule : Rule) (peers : List PeerId) (setDefault : Bool) :
    SysState × Except (Error Empty) Unit :=
  match s.network with
  | none => (s, .error .actorNotSpawned)
  | some ns =>
    let ns1 := if setDefault then { ns with defaultInbound := some rule } else ns
    let ns2 := applyPeerRules rule ns1 peers
    ({ s with network := some ns2 }, .ok ())

/-- Embedding of write_remote_vault: resolve the network actor, then mirror the
three-step write against the remote peer: CheckVault, CreateVault only when the
check reported absence, then WriteToRemoteVault.  An unreachable peer surfaces
as an outbound failure.  The third component records the requests issued. -/
def writeRemoteVault (s : SysState) (peer : PeerId) (loc : Location)
    (payload : Bytes) (hint : RecordHint) :
    SysState × Except (Error (SendRequestError RemoteVaultError)) Unit × List SecureMsg :=
  match s.network with
  | none => (s, .error .actorNotSpawned, [])
  | some ns =>
    match lookupKey ns.remotes peer with
    | none => (s, .error (.inner .outboundFailure), [SecureMsg.checkVault loc.vaultPath])
    | some rst =>
      let exists0 := rst.checkVault loc.vaultPath
      let rst1 := if exists0 then rst else rst.createVault loc
      let trace := SecureMsg.checkVault loc.vaultPath ::
        ((if exists0 then [] else [SecureMsg.createVault loc]) ++
          [SecureMsg.writeToRemoteVault loc payload hint])
      let install := fun rst2 =>
        { s with network := some { ns with remotes := insertReplace ns.remotes peer rst2 } }
      match SecureClientState.writeToVault rst1 loc payload hint with
      | .ok rst2 => (install rst2, .ok (), trace)
      | .error e => (install rst1, .error (.inner (.inner e)), trace)

/-- Embedding of remote_runtime_exec: resolve the network actor, forward the
procedure to the remote peer, and turn a failed remote procedure reply into the
ProcResult error variant via unwrap_or_else.  An unreachable peer surfaces as
an outbound failure. -/
def remoteRuntimeExec (s : SysState) (peer : PeerId) (p : Procedure) :
    SysState × Except (Error (SendRequestError Empty)) ProcResult :=
  match s.network with
  | none => (s, .error .actorNotSpawned)
  | some ns =>
    match lookupKey ns.remotes peer with
    | none => (s, .error (.inner .outboundFailure))
    | some rst =>
      let r := p.run rst
      ({ s with network := some { ns with remotes := insertReplace ns.remotes peer r.1 } },
        .ok (convertProc r.2))

/-! Concrete scenario definitions used by the claim counterexamples and
witnesses. -/

/-- A 32-byte key of zeroes, the correct key length. -/
def key32 : Bytes := List.replicate 32 0

/-- A system holding exactly one spawned client (path 0), which is also the
current target. -/
def c1State : SysState := (initStrongholdSystem [] [0]).1

/-- A network state knowing a single reachable remote peer, peer 7. -/
def c2Net : NetworkState :=
  { defaultInbound := none, defaultOutbound := none, peerRules := [],
    remotes := [(7, SecureClientState.empty)] }

/-- One spawned local client targeted, plus the network actor of c2Net. -/
def c2S : SysState := { c1State with network := some c2Net }

/-- The identity of the client spawned from path 0. -/
def idPath0 : ClientId := loadFromPath [0] [0]

/-- Sample location used by the write claims. -/
def c2Loc : Location := .generic [10] [11]

/-- A snapshot file holding a sub-state for the identity of path 0, sealed
under key32. -/
def c3File : SnapshotFile :=
  { key := key32,
    entries := [(idPath0, { vaults := [([10], [([11], ([7], [8]))])], store := [] })] }

/-- A registry with no spawned workers at all, over a disk holding c3File. -/
def c3FreshRaw : SysState :=
  { SysState.initial with snapshotFiles := [((none, none), c3File)] }

/-- A fresh system initialized for path 0 over a disk holding c3File. -/
def c3WS : SysState := (initStrongholdSystem [((none, none), c3File)] [0]).1

/-- The outcome of reading the snapshot for path 0 on c3WS. -/
def c3WOut : SysState × Except (Error ReadSnapshotError) Unit :=
  ((readSnapshot c3WS [0] none key32 none none).retOf).getD (SysState.initial, .ok ())

/-- A system with one spawned client (path 0) targeted, used to probe a switch
to the never-spawned path 1. -/
def c4S : SysState := c1State

/-- A system with two spawned responsive clients (paths 0 and 1, in that spawn
order) carrying distinct vault data. -/
def c5S : SysState :=
  (writeToVault ((spawnStrongholdActor c1State [1]).1) (.generic [2] [3]) [4] [5]).1

/-- The external path naming client A of the snapshot round trip. -/
def c6PathA : Bytes := [0]

/-- The external path naming client B of the snapshot round trip. -/
def c6PathB : Bytes := [1]

/-- Identity of client A. -/
def c6IdA : ClientId := loadFromPath c6PathA c6PathA

/-- Identity of client B. -/
def c6IdB : ClientId := loadFromPath c6PathB c6PathB

/-- Location written for client A. -/
def c6LocA : Location := .generic [10] [11]

/-- Location written for client B. -/
def c6LocB : Location := .generic [20] [21]

/-- Spawn A and B, write dB under hB into B and dA under hA into A. -/
def c6AfterWrites (dA dB hA hB : Bytes) : SysState :=
  let s1 := (initStrongholdSystem [] c6PathA).1
  let s2 := (spawnStrongholdActor s1 c6PathB).1
  let s3 := (writeToVault s2 c6LocB dB hB).1
  let s4 := (switchActorTarget s3 c6PathA).1
  (writeToVault s4 c6LocA dA hA).1

/-- The reply of write_all_to_snapshot on the two-client system. -/
def c6SnapReply (dA dB hA hB : Bytes) :
    Option (Except (Error WriteSnapshotError) Unit × List ClientId) :=
  ((writeAllToSnapshot (c6AfterWrites dA dB hA hB) key32 none none).retOf).map
    (fun o => (o.2.1, o.2.2))

/-- The disk contents after write_all_to_snapshot on the two-client system. -/
def c6SnapFiles (dA dB hA hB : Bytes) : List (SnapPath × SnapshotFile) :=
  (((writeAllToSnapshot (c6AfterWrites dA dB hA hB) key32 none none).retOf).map
    (fun o => o.1.snapshotFiles)).getD []

/-- The worker state holding exactly the record written for A. -/
def c6StateA (dA hA : Bytes) : SecureClientState :=
  { vaults := [([10], [([11], (dA, hA))])], store := [] }

/-- Round trip observation: initialize a fresh system for A over the snapshot
disk, read the snapshot for A, and observe A's worker state, B's directory
entry and the call result. -/
def c6RoundTrip (dA dB hA hB : Bytes) :
    Option (Option SecureClientState × Option Worker × Except (Error ReadSnapshotError) Unit) :=
  let fresh := (initStrongholdSystem (c6SnapFiles dA dB hA hB) c6PathA).1
  ((readSnapshot fresh c6PathA none key32 none none).retOf).map
    (fun o => ((lookupKey o.1.clients c6IdA).map Worker.state, lookupKey o.1.clients c6IdB, o.2))

/-- A registry with no spawned workers over the snapshot disk written from the
two-client system with concrete data. -/
def c6FreshRaw : SysState :=
  { SysState.initial with snapshotFiles := c6SnapFiles [7] [9] [8] [12] }

/-- The former identity of the re-labelling scenario, spawned from path 4. -/
def c7Fid : ClientId := loadFromPath [4] [4]

/-- The sub-state recorded in the snapshot for the former identity. -/
def c7Data : SecureClientState :=
  { vaults := [([1], [([2], ([3], [4]))])], store := [] }

/-- A snapshot file holding c7Data under the former identity. -/
def c7File : SnapshotFile := { key := key32, entries := [(c7Fid, c7Data)] }

/-- A system with the former identity spawned (current target unset) over a
disk holding c7File. -/
def c7S : SysState :=
  { clients := [(c7Fid, Worker.fresh)], target := none, snapshotAccum := [],
    snapshotFiles := [((none, none), c7File)], network := none }

/-- A procedure whose execution fails internally with a fixed message. -/
def c8Proc : Procedure := { run := fun st => (st, Except.error "proc failed") }

/-- A network state knowing remote peer 5 and nothing else. -/
def c8Net : NetworkState :=
  { defaultInbound := none, defaultOutbound := none, peerRules := [],
    remotes := [(5, SecureClientState.empty)] }

/-- A system with one targeted client and the network actor of c8Net. -/
def c8S : SysState := { c1State with network := some c8Net }

/-- A network state with a pre-existing default outbound rule and an outbound
peer rule for peer 3, to observe that set_firewall_rule leaves them alone. -/
def c9Net : NetworkState :=
  { defaultInbound := none, defaultOutbound := some .rejectAll,
    peerRules := [((3, .outbound), .rejectAll)], remotes := [] }

/-- A system running the network actor of c9Net. -/
def c9S : SysState := { SysState.initial with network := some c9Net }

section AssocLemmas

variable {κ α : Type} [DecidableEq κ]

theorem lookupKey_insertReplace_self (l : List (κ × α)) (q : κ) (b : α) :
    lookupKey (insertReplace l q b) q = some b := by
  induction l with
  | nil => simp [insertReplace, lookupKey]
  | cons ka rest ih =>
    obtain ⟨k, a⟩ := ka
    by_cases h : k = q
    · simp [insertReplace, lookupKey, h]
    · simp [insertReplace, lookupKey, h, ih]

theorem lookupKey_insertReplace_ne (l : List (κ × α)) (q q' : κ) (b : α) (h : q' ≠ q) :
    lookupKey (insertReplace l q b) q' = lookupKey l q' := by
  induction l with
  | nil => simp [insertReplace, lookupKey, if_neg (Ne.symm h)]
  | cons ka rest ih =>
    obtain ⟨k, a⟩ := ka
    by_cases hk : k = q
    · subst hk
      simp [insertReplace, lookupKey, if_neg (Ne.symm h)]
    · simp only [insertReplace, if_neg hk]
      by_cases hk' : k = q'
      · simp [lookupKey, hk']
      · simp [lookupKey, hk', ih]

theorem insertReplace_of_lookup_none (l : List (κ × α)) (q : κ) (b : α)
    (h : lookupKey l q = none) : insertReplace l q b = l ++ [(q, b)] := by
  induction l with
  | nil => simp [insertReplace]
  | cons ka rest ih =>
    obtain ⟨k, a⟩ := ka
    by_cases hk : k = q
    · simp [lookupKey, hk] at h
    · simp only [lookupKey, if_neg hk] at h
      simp [insertReplace, hk, ih h]

theorem lookupKey_append_right (l₁ l₂ : List (κ × α)) (q : κ)
    (h : lookupKey l₁ q = none) : lookupKey (l₁ ++ l₂) q = lookupKey l₂ q := by
  induction l₁ with
  | nil => simp
  | cons ka rest ih =>
    obtain ⟨k, a⟩ := ka
    by_cases hk : k = q
    · simp [lookupKey, hk] at h
    · simp only [lookupKey, if_neg hk] at h
      simp [lookupKey, hk, ih h]

theorem lookupKey_append_left (l₁ l₂ : List (κ × α)) (q : κ) (b : α)
    (h : lookupKey l₁ q = some b) : lookupKey (l₁ ++ l₂) q = some b := by
  induction l₁ with
  | nil => simp [lookupKey] at h
  | cons ka rest ih =>
    obtain ⟨k, a⟩ := ka
    by_cases hk : k = q
    · simp only [lookupKey, if_pos hk] at h
      simp [lookupKey, hk, h]
    · simp only [lookupKey, if_neg hk] at h
      simp [lookupKey, hk, ih h]

theorem updateKey_keys (l : List (κ × α)) (q : κ) (f : α → α) :
    (updateKey l q f).map Prod.fst = l.map Prod.fst := by
  induction l with
  | nil => simp [updateKey]
  | cons ka rest ih =>
    obtain ⟨k, a⟩ := ka
    by_cases hk : k = q
    · simp [updateKey, hk]
    · simp [updateKey, hk, ih]

theorem lookupKey_updateKey_self (l : List (κ × α)) (q : κ) (f : α → α) :
    lookupKey (updateKey l q f) q = (lookupKey l q).map f := by
  induction l with
  | nil => simp [updateKey, lookupKey]
  | cons ka rest ih =>
    obtain ⟨k, a⟩ := ka
    by_cases hk : k = q
    · simp [updateKey, lookupKey, hk]
    · simp [updateKey, lookupKey, hk, ih]

theorem lookupKey_isSome_insertReplace_or_keep (l : List (κ × α)) (q : κ) (b : α) :
    (lookupKey (l ++ [(q, b)]) q).isSome = true := by
  cases h : lookupKey l q with
  | none => simp [lookupKey_append_right l [(q, b)] q h, lookupKey]
  | some a => simp [lookupKey_append_left l [(q, b)] q a h]

end AssocLemmas

/-! Helper lemmas about the spec-modelled handlers. -/

theorem lookupKey_spawnClient (s : SysState) (id : ClientId) :
    ∃ w, lookupKey (spawnClient s id).clients id = some w := by
  cases h : lookupKey s.clients id with
  | some w => exact ⟨w, by simp [spawnClient, h]⟩
  | none =>
    refine ⟨Worker.fresh, ?_⟩
    simp only [spawnClient, h]
    rw [lookupKey_append_right _ _ _ h]
    simp [lookupKey]

theorem createVault_noop (st : SecureClientState) (loc : Location)
    (h : st.checkVault loc.vaultPath = true) : st.createVault loc = st := by
  simp [SecureClientState.createVault, h]

theorem createVault_checkVault (st : SecureClientState) (loc : Location) :
    (st.createVault loc).checkVault loc.vaultPath = true := by
  unfold SecureClientState.createVault
  by_cases h : st.checkVault loc.vaultPath
  · simp [h]
  · simp only [h, if_false]
    unfold SecureClientState.checkVault
    exact lookupKey_isSome_insertReplace_or_keep st.vaults loc.vaultPath []

theorem createVault_idem (st : SecureClientState) (loc : Location) :
    (st.createVault loc).createVault loc = st.createVault loc :=
  createVault_noop _ _ (createVault_checkVault st loc)

theorem spawnStrongholdActor_spec (s : SysState) (clientPath : Bytes) :
    (spawnStrongholdActor s clientPath).2 = .ok () ∧
    (spawnStrongholdActor s clientPath).1.target = some (loadFromPath clientPath clientPath) ∧
    (lookupKey (spawnStrongholdActor s clientPath).1.clients
      (loadFromPath clientPath clientPath)).isSome = true := by
  obtain ⟨w, hw⟩ := lookupKey_spawnClient s (loadFromPath clientPath clientPath)
  simp [spawnStrongholdActor, switchClient, hw]

/-- C1: the spec requires read_snapshot and write_all_to_snapshot to fail with
a clear tagged error on key data that is not exactly 32 bytes, never truncating
or padding and never terminating the process; the code instead panics inside
key.copy_from_slice on such input, here shown on a 1-byte key against a system
with one spawned client. -/
theorem c1_key_length_mismatch_panics :
    readSnapshot c1State [0] none [0] none none = .panicked copySliceMsg ∧
    writeAllToSnapshot c1State [0] none none = .panicked copySliceMsg :=
  ⟨by decide, by decide⟩

/-- C4: switching the actor target to a never-spawned identity returns the
not-spawned error and leaves the whole system state — in particular the
previously set current target and the worker directory — unchanged. -/
theorem c4_switch_unspawned_fails (s : SysState) (clientPath : Bytes)
    (h : lookupKey s.clients (loadFromPath clientPath clientPath) = none) :
    switchActorTarget s clientPath = (s, .error .actorNotSpawned) := by
  simp [switchActorTarget, switchClient, h]

/-- Witness for C4: path 1 was never spawned in c4S, whose target is the
path-0 identity, and the call fails leaving the state untouched. -/
theorem c4_switch_unspawned_fails_witness :
    lookupKey c4S.clients (loadFromPath [1] [1]) = none ∧
    switchActorTarget c4S [1] = (c4S, .error .actorNotSpawned) :=
  ⟨by decide, c4_switch_unspawned_fails c4S [1] (by decide)⟩

/-- C10: a successful spawn_stronghold_actor (and init_stronghold_system)
spawns a worker for the identity derived from the client path and sets the
Registry current target to exactly that identity. -/
theorem c10_init_sets_target (s : SysState) (files : List (SnapPath × SnapshotFile))
    (clientPath : Bytes) :
    (spawnStrongholdActor s clientPath).2 = .ok () ∧
    (spawnStrongholdActor s clientPath).1.target = some (loadFromPath clientPath clientPath) ∧
    (lookupKey (spawnStrongholdActor s clientPath).1.clients
      (loadFromPath clientPath clientPath)).isSome = true ∧
    (initStrongholdSystem files clientPath).2 = .ok () ∧
    (initStrongholdSystem files clientPath).1.target = some (loadFromPath clientPath clientPath) ∧
    (lookupKey (initStrongholdSystem files clientPath).1.clients
      (loadFromPath clientPath clientPath)).isSome = true := by
  obtain ⟨h1, h2, h3⟩ := spawnStrongholdActor_spec s clientPath
  obtain ⟨h4, h5, h6⟩ :=
    spawnStrongholdActor_spec { SysState.initial with snapshotFiles := files } clientPath
  exact ⟨h1, h2, h3, h4, h5, h6⟩

/-- C2: write_to_vault (and write_remote_vault) issues the round trips
check-existence, then create exactly when the check reported absence, then
write, in that order; and the create operation is idempotent — it creates the
vault if absent and is a no-op if present. -/
theorem c2_write_three_step (s : SysState) (loc : Location) (payload hint : Bytes)
    (id : ClientId) (w : Worker) (peer : PeerId) (ns : NetworkState) (rst : SecureClientState)
    (htgt : getTarget s = some (id, w)) (hresp : w.responsive = true)
    (hnet : s.network = some ns) (hrem : lookupKey ns.remotes peer = some rst) :
    (writeToVault s loc payload hint).2.2 =
      SecureMsg.checkVault loc.vaultPath ::
        ((if w.state.checkVault loc.vaultPath then [] else [SecureMsg.createVault loc]) ++
          [SecureMsg.writeToVault loc payload hint]) ∧
    (writeRemoteVault s peer loc payload hint).2.2 =
      SecureMsg.checkVault loc.vaultPath ::
        ((if rst.checkVault loc.vaultPath then [] else [SecureMsg.createVault loc]) ++
          [SecureMsg.writeToRemoteVault loc payload hint]) ∧
    (∀ st : SecureClientState, st.checkVault loc.vaultPath = true → st.createVault loc = st) ∧
    (∀ st : SecureClientState, (st.createVault loc).checkVault loc.vaultPath = true) ∧
    (∀ st : SecureClientState, (st.createVault loc).createVault loc = st.createVault loc) := by
  refine ⟨?_, ?_, fun st h => createVault_noop st loc h,
    fun st => createVault_checkVault st loc, fun st => createVault_idem st loc⟩
  · simp only [writeToVault, htgt, hresp, if_true]
    cases hsw : SecureClientState.writeToVault
        (if w.state.checkVault loc.vaultPath then w.state else w.state.createVault loc)
        loc payload hint with
    | ok st2 => simp [hsw]
    | error e => simp [hsw]
  · simp only [writeRemoteVault, hnet, hrem]
    cases hsw : SecureClientState.writeToVault
        (if rst.checkVault loc.vaultPath then rst else rst.createVault loc) loc payload hint with
    | ok st2 => simp [hsw]
    | error e => simp [hsw]

/-- Witness for C2: on a fresh target worker and a fresh remote peer the vault
is absent, so the recorded round trips are check, create, write. -/
theorem c2_write_three_step_witness :
    getTarget c2S = some (idPath0, Worker.fresh) ∧ Worker.fresh.responsive = true ∧
    c2S.network = some c2Net ∧ lookupKey c2Net.remotes 7 = some SecureClientState.empty ∧
    ((writeToVault c2S c2Loc [7] [8]).2.2 =
        [SecureMsg.checkVault [10], SecureMsg.createVault c2Loc,
          SecureMsg.writeToVault c2Loc [7] [8]] ∧
      (writeRemoteVault c2S 7 c2Loc [7] [8]).2.2 =
        [SecureMsg.checkVault [10], SecureMsg.createVault c2Loc,
          SecureMsg.writeToRemoteVault c2Loc [7] [8]] ∧
      (∀ st : SecureClientState, st.checkVault c2Loc.vaultPath = true → st.createVault c2Loc = st) ∧
      (∀ st : SecureClientState, (st.createVault c2Loc).checkVault c2Loc.vaultPath = true) ∧
      (∀ st : SecureClientState, (st.createVault c2Loc).createVault c2Loc = st.createVault c2Loc)) :=
  ⟨by decide, by decide, by rfl, by decide,
    c2_write_three_step c2S c2Loc [7] [8] idPath0 Worker.fresh 7 c2Net SecureClientState.empty
      (by decide) (by decide) (by rfl) (by decide)⟩

theorem applyPeerRules_spec (rule : Rule) (peers : List PeerId) :
    ∀ ns : NetworkState,
      (∀ peer ∈ peers,
        lookupKey (applyPeerRules rule ns peers).peerRules (peer, RuleDirection.inbound) =
          some rule) ∧
      (∀ q : PeerId × RuleDirection, q.2 = RuleDirection.outbound ∨ q.1 ∉ peers →
        lookupKey (applyPeerRules rule ns peers).peerRules q = lookupKey ns.peerRules q) ∧
      (applyPeerRules rule ns peers).defaultInbound = ns.defaultInbound ∧
      (applyPeerRules rule ns peers).defaultOutbound = ns.defaultOutbound ∧
      (applyPeerRules rule ns peers).remotes = ns.remotes := by
  induction peers with
  | nil =>
    intro ns
    refine ⟨?_, ?_, rfl, rfl, rfl⟩
    · intro peer hmem; simp at hmem
    · intro q hq; rfl
  | cons p rest ih =>
    intro ns
    obtain ⟨ih1, ih2, ih3, ih4, ih5⟩ :=
      ih { ns with peerRules := insertReplace ns.peerRules (p, RuleDirection.inbound) rule }
    refine ⟨?_, ?_, ?_, ?_, ?_⟩
    · intro peer hmem
      rcases List.mem_cons.mp hmem with hpeq | hmem2
    
      · subst hpeq
        by_cases hin : peer ∈ rest
        · exact ih1 peer hin
        · rw [show applyPeerRules rule ns (peer :: rest) = applyPeerRules rule
              { ns with peerRules := insertReplace ns.peerRules (peer, RuleDirection.inbound) rule }
              rest from rfl]
          rw [ih2 (peer, RuleDirection.inbound) (Or.inr hin)]
          exact lookupKey_insertReplace_self ns.peerRules (peer, RuleDirection.inbound) rule
      · exact ih1 peer hmem2
    · intro q hq
      have hq2 : q.2 = RuleDirection.outbound ∨ q.1 ∉ rest := by
        rcases hq with h | h
        · exact Or.inl h
        · exact Or.inr (fun hmem => h (List.mem_cons_of_mem _ hmem))
      have hqne : q ≠ (p, RuleDirection.inbound) := by
        intro hcontra
        rcases hq with h | h
        · rw [hcontra] at h
          simp at h
        · exact h (by rw [hcontra]; exact List.mem_cons_self p rest)
      rw [show applyPeerRules rule ns (p :: rest) = applyPeerRules rule
          { ns with peerRules := insertReplace ns.peerRules (p, RuleDirection.inbound) rule }
          rest from rfl]
      rw [ih2 q hq2]
      exact lookupKey_insertReplace_ne ns.peerRules (p, RuleDirection.inbound) q rule hqne
    · exact ih3
    · exact ih4
    · exact ih5

/-- C9: set_firewall_rule applies the rule to every peer in the list scoped to
the inbound direction only — outbound entries and entries of other peers are
untouched — and replaces the default inbound rule exactly when set_default is
true, leaving the default outbound rule alone. -/
theorem c9_firewall_inbound_scope (s : SysState) (rule : Rule) (peers : List PeerId)
    (setDefault : Bool) (ns : NetworkState) (hnet : s.network = some ns) :
    ∃ ns2, setFirewallRule s rule peers setDefault = ({ s with network := some ns2 }, .ok ()) ∧
      (∀ peer ∈ peers, lookupKey ns2.peerRules (peer, RuleDirection.inbound) = some rule) ∧
      (∀ q : PeerId × RuleDirection, q.2 = RuleDirection.outbound ∨ q.1 ∉ peers →
        lookupKey ns2.peerRules q = lookupKey ns.peerRules q) ∧
      ns2.defaultInbound = (if setDefault then some rule else ns.defaultInbound) ∧
      ns2.defaultOutbound = ns.defaultOutbound := by
  refine ⟨applyPeerRules rule
    (if setDefault then { ns with defaultInbound := some rule } else ns) peers, ?_, ?_, ?_, ?_, ?_⟩
  · simp [setFirewallRule, hnet]
  · intro peer hmem
    exact (applyPeerRules_spec rule peers _).1 peer hmem
  · intro q hq
    rw [(applyPeerRules_spec rule peers _).2.1 q hq]
    cases setDefault <;> simp
  · rw [(applyPeerRules_spec rule peers _).2.2.1]
    cases setDefault <;> simp
  · rw [(applyPeerRules_spec rule peers _).2.2.2.1]
    cases setDefault <;> simp

/-- Witness for C9: applying an allow-all rule to peers 1 and 2 with
set_default true, on a network state carrying outbound entries, sets the two
inbound entries and the inbound default and preserves everything outbound. -/
theorem c9_firewall_inbound_scope_witness :
    c9S.network = some c9Net ∧
    (∃ ns2, setFirewallRule c9S .allowAll [1, 2] true = ({ c9S with network := some ns2 }, .ok ()) ∧
      (∀ peer ∈ [1, 2], lookupKey ns2.peerRules (peer, RuleDirection.inbound) = some .allowAll) ∧
      (∀ q : PeerId × RuleDirection, q.2 = RuleDirection.outbound ∨ q.1 ∉ [1, 2] →
        lookupKey ns2.peerRules q = lookupKey c9Net.peerRules q) ∧
      ns2.defaultInbound = (if true then some .allowAll else c9Net.defaultInbound) ∧
      ns2.defaultOutbound = c9Net.defaultOutbound) :=
  ⟨by rfl, c9_firewall_inbound_scope c9S .allowAll [1, 2] true c9Net (by rfl)⟩

/-- C8: runtime_exec (and remote_runtime_exec) returns Ok carrying a
ProcResult whenever the routing succeeded; a failed procedure execution is
converted into the ProcResult error variant instead of an application-level
Err, and the only Err outcomes of either method are routing failures — target
not spawned, mailbox unreachable, or outbound transport failure. -/
theorem c8_runtime_exec_wraps_failures (s : SysState) (p : Procedure) (peer : PeerId)
    (id : ClientId) (w : Worker) (ns : NetworkState) (rst : SecureClientState)
    (htgt : getTarget s = some (id, w)) (hresp : w.responsive = true)
    (hnet : s.network = some ns) (hrem : lookupKey ns.remotes peer = some rst) :
    (runtimeExec s p).2 = .ok (convertProc (p.run w.state).2) ∧
    (remoteRuntimeExec s peer p).2 = .ok (convertProc (p.run rst).2) ∧
    (∀ msg, (p.run w.state).2 = Except.error msg →
      (runtimeExec s p).2 = .ok (ProcResult.error msg)) ∧
    (∀ s2 : SysState, ∀ p2 : Procedure,
      (runtimeExec s2 p2).2 = .error .actorNotSpawned ∨
      (runtimeExec s2 p2).2 = .error .actorMailbox ∨
      ∃ res, (runtimeExec s2 p2).2 = .ok res) ∧
    (∀ s2 : SysState, ∀ peer2 : PeerId, ∀ p2 : Procedure,
      (remoteRuntimeExec s2 peer2 p2).2 = .error .actorNotSpawned ∨
      (remoteRuntimeExec s2 peer2 p2).2 = .error (.inner .outboundFailure) ∨
      ∃ res, (remoteRuntimeExec s2 peer2 p2).2 = .ok res) := by
  refine ⟨?_, ?_, ?_, ?_, ?_⟩
  · simp [runtimeExec, htgt, hresp]
  · simp [remoteRuntimeExec, hnet, hrem]
  · intro msg hmsg
    simp [runtimeExec, htgt, hresp, hmsg, convertProc]
  · intro s2 p2
    cases hgt : getTarget s2 with
    | none =>
      left
      simp [runtimeExec, hgt]
    | some tw =>
      obtain ⟨tid, tw2⟩ := tw
      by_cases hr : tw2.responsive
      · right; right
        exact ⟨convertProc (p2.run tw2.state).2, by simp [runtimeExec, hgt, hr]⟩
      · right; left
        simp [runtimeExec, hgt, hr]
  · intro s2 peer2 p2
    cases hn : s2.network with
    | none =>
      left
      simp [remoteRuntimeExec, hn]
    | some ns2 =>
      cases hr : lookupKey ns2.remotes peer2 with
      | none =>
        right; left
        simp [remoteRuntimeExec, hn, hr]
      | some rst2 =>
        right; right
        exact ⟨convertProc (p2.run rst2).2, by simp [remoteRuntimeExec, hn, hr]⟩

/-- Witness for C8: a procedure that fails internally with the message
"proc failed" yields Ok (ProcResult error) both locally and against remote
peer 5. -/
theorem c8_runtime_exec_wraps_failures_witness :
    getTarget c8S = some (idPath0, Worker.fresh) ∧ Worker.fresh.responsive = true ∧
    c8S.network = some c8Net ∧ lookupKey c8Net.remotes 5 = some SecureClientState.empty ∧
    ((runtimeExec c8S c8Proc).2 = .ok (ProcResult.error "proc failed") ∧
      (remoteRuntimeExec c8S 5 c8Proc).2 = .ok (ProcResult.error "proc failed") ∧
      (∀ msg, (c8Proc.run Worker.fresh.state).2 = Except.error msg →
        (runtimeExec c8S c8Proc).2 = .ok (ProcResult.error msg)) ∧
      (∀ s2 : SysState, ∀ p2 : Procedure,
        (runtimeExec s2 p2).2 = .error .actorNotSpawned ∨
        (runtimeExec s2 p2).2 = .error .actorMailbox ∨
        ∃ res, (runtimeExec s2 p2).2 = .ok res) ∧
      (∀ s2 : SysState, ∀ peer2 : PeerId, ∀ p2 : Procedure,
        (remoteRuntimeExec s2 peer2 p2).2 = .error .actorNotSpawned ∨
        (remoteRuntimeExec s2 peer2 p2).2 = .error (.inner .outboundFailure) ∨
        ∃ res, (remoteRuntimeExec s2 peer2 p2).2 = .ok res)) :=
  ⟨by decide, by decide, by rfl, by decide,
    c8_runtime_exec_wraps_failures c8S c8Proc 5 idPath0 Worker.fresh c8Net
      SecureClientState.empty (by decide) (by decide) (by rfl) (by decide)⟩

theorem gatherStates_responsive :
    ∀ (clients : List (ClientId × Worker)) (acc : List (ClientId × SecureClientState)),
      (∀ cw ∈ clients, cw.2.responsive = true) →
      (∀ cw ∈ clients, lookupKey acc cw.1 = none) →
      (clients.map Prod.fst).Nodup →
      gatherStates clients acc =
        (acc ++ clients.map (fun cw => (cw.1, cw.2.state)), true, clients.map Prod.fst) := by
  intro clients
  induction clients with
  | nil =>
    intro acc _ _ _
    simp [gatherStates]
  | cons cw0 rest ih =>
    obtain ⟨id, w⟩ := cw0
    intro acc hresp hfresh hnd
    have hw : w.responsive = true := hresp (id, w) (List.mem_cons_self _ _)
    have hacc : lookupKey acc id = none := hfresh (id, w) (List.mem_cons_self _ _)
    have hnotin : id ∉ rest.map Prod.fst := (List.nodup_cons.mp (by simpa using hnd)).1
    have hnd2 : (rest.map Prod.fst).Nodup := (List.nodup_cons.mp (by simpa using hnd)).2
    have hresp2 : ∀ cw ∈ rest, cw.2.responsive = true :=
      fun cw hm => hresp cw (List.mem_cons_of_mem _ hm)
    have hfresh2 : ∀ cw ∈ rest, lookupKey (insertReplace acc id w.state) cw.1 = none := by
      intro cw hmem
      have hne : cw.1 ≠ id := by
        intro hcontra
        exact hnotin (hcontra ▸ List.mem_map_of_mem Prod.fst hmem)
      rw [lookupKey_insertReplace_ne acc id cw.1 w.state hne]
      exact hfresh cw (List.mem_cons_of_mem _ hmem)
    have hrec := ih (insertReplace acc id w.state) hresp2 hfresh2 hnd2
    rw [insertReplace_of_lookup_none acc id w.state hacc] at hrec
    simp only [gatherStates, hw, if_true,
      insertReplace_of_lookup_none acc id w.state hacc, hrec]
    simp [List.append_assoc]

theorem gatherStates_fails :
    ∀ (clients : List (ClientId × Worker)) (acc : List (ClientId × SecureClientState)),
      (∃ cw ∈ clients, cw.2.responsive = false) →
      (gatherStates clients acc).2.1 = false := by
  intro clients
  induction clients with
  | nil =>
    intro acc h
    rcases h with ⟨cw, hmem, _⟩
    simp at hmem
  | cons cw0 rest ih =>
    obtain ⟨id, w⟩ := cw0
    intro acc h
    by_cases hw : w.responsive
    · have hrest : ∃ cw ∈ rest, cw.2.responsive = false := by
        rcases h with ⟨cw, hmem, hfalse⟩
        rcases List.mem_cons.mp hmem with heq | hmem2
        · rw [heq] at hfalse
          rw [hw] at hfalse
          cases hfalse
        · exact ⟨cw, hmem2, hfalse⟩
      simp only [gatherStates, hw, if_true]
      exact ih (insertReplace acc id w.state) hrest
    · simp [gatherStates, hw]

/-- C5: write_all_to_snapshot polls every registered worker — not just the
current target — sequentially in the order the Registry returns them, and the
persisted snapshot file contains exactly their identities and full states in
that order; if any worker fails to respond during gathering, the call returns
the mailbox error and the snapshot files on disk are unchanged. -/
theorem c5_write_all_gathers_in_order (s : SysState) (keydata : Bytes)
    (filename path : Option String) (hkey : keydata.length = 32)
    (hacc : s.snapshotAccum = []) (hnd : (s.clients.map Prod.fst).Nodup) :
    ((∀ cw ∈ s.clients, cw.2.responsive = true) →
      ∃ s1, writeAllToSnapshot s keydata filename path =
          .ret (s1, .ok (), s.clients.map Prod.fst) ∧
        s1.snapshotFiles = insertReplace s.snapshotFiles (filename, path)
          { key := keydata, entries := s.clients.map (fun cw => (cw.1, cw.2.state)) }) ∧
    (∀ out, (∃ cw ∈ s.clients, cw.2.responsive = false) →
      writeAllToSnapshot s keydata filename path = .ret out →
      out.1.snapshotFiles = s.snapshotFiles ∧ out.2.1 = .error .actorMailbox) := by
  constructor
  · intro hrespAll
    have hg := gatherStates_responsive s.clients [] hrespAll (fun cw _ => rfl) hnd
    have hone : writeAllToSnapshot s keydata filename path =
        .ret ({ s with
                snapshotAccum := s.clients.map (fun cw => (cw.1, cw.2.state))
                snapshotFiles := insertReplace s.snapshotFiles (filename, path)
                  { key := keydata,
                    entries := s.clients.map (fun cw => (cw.1, cw.2.state)) } },
          .ok (), s.clients.map Prod.fst) := by
      simp only [writeAllToSnapshot, hkey, hacc, hg]
      simp
    exact ⟨_, hone, rfl⟩
  · intro out hex hout
    rcases hg : gatherStates s.clients s.snapshotAccum with ⟨acc, ok, tr⟩
    have hfail := gatherStates_fails s.clients s.snapshotAccum hex
    rw [hg] at hfail
    have hok : ok = false := hfail
    subst hok
    have hw2 : writeAllToSnapshot s keydata filename path =
        .ret ({ s with snapshotAccum := acc }, .error .actorMailbox, tr) := by
      simp only [writeAllToSnapshot, hkey, hg]
      simp
    rw [hw2] at hout
    have hpair : ({ s with snapshotAccum := acc },
        (.error .actorMailbox : Except (Error WriteSnapshotError) Unit), tr) = out := by
      injection hout
    subst hpair
    exact ⟨rfl, rfl⟩

/-- Witness for C5: the two-client system c5S with all workers responsive. -/
theorem c5_write_all_gathers_in_order_witness :
    key32.length = 32 ∧ c5S.snapshotAccum = [] ∧ (c5S.clients.map Prod.fst).Nodup ∧
    (((∀ cw ∈ c5S.clients, cw.2.responsive = true) →
        ∃ s1, writeAllToSnapshot c5S key32 none none =
            .ret (s1, .ok (), c5S.clients.map Prod.fst) ∧
          s1.snapshotFiles = insertReplace c5S.snapshotFiles (none, none)
            { key := key32, entries := c5S.clients.map (fun cw => (cw.1, cw.2.state)) }) ∧
      (∀ out, (∃ cw ∈ c5S.clients, cw.2.responsive = false) →
        writeAllToSnapshot c5S key32 none none = .ret out →
        out.1.snapshotFiles = c5S.snapshotFiles ∧ out.2.1 = .error .actorMailbox)) :=
  ⟨by decide, by decide, by decide,
    c5_write_all_gathers_in_order c5S key32 none none (by decide) (by decide) (by decide)⟩

theorem resolveReadTarget_clients (s : SysState) (f : Option ClientId) :
    (resolveReadTarget s f).1.clients = s.clients := by
  unfold resolveReadTarget
  cases f with
  | none => cases h : getTarget s <;> simp [h]
  | some fid => cases h : lookupKey s.clients fid <;> simp [h]

/-- C3 counterexample: on a system whose identity for path 0 has no spawned
worker (and no current target), read_snapshot of path 0 returns the
not-spawned error and creates no worker, although the snapshot on disk holds a
sub-state for that identity — the claimed implicit worker creation does not
happen. -/
theorem c3_read_snapshot_unspawned_counterexample :
    readSnapshot c3FreshRaw [0] none key32 none none =
      .ret (c3FreshRaw, .error .actorNotSpawned) ∧
    c3FreshRaw.clients = [] :=
  ⟨by decide, by decide⟩

/-- C3 (amended): read_snapshot never creates a worker — the set of registered
identities after any non-panicking call is exactly the set before; when no
former client path is supplied and the Registry has no current target the call
fails with the not-spawned error, leaving the state unchanged; and when no
former client path is supplied and the current target resolves to a responsive
worker and the snapshot read yields a sub-state, that sub-state is installed
into exactly the current target worker, whatever its identity — independent of
the client_path identity. -/
theorem c3_read_snapshot_never_spawns (s : SysState) (clientPath : Bytes)
    (formerClientPath : Option Bytes) (keydata : Bytes) (filename path : Option String)
    (out : SysState × Except (Error ReadSnapshotError) Unit)
    (hout : readSnapshot s clientPath formerClientPath keydata filename path = .ret out) :
    out.1.clients.map Prod.fst = s.clients.map Prod.fst ∧
    (formerClientPath = none → getTarget s = none →
      out = (s, .error .actorNotSpawned)) ∧
    (formerClientPath = none → ∀ tid2 w2, getTarget s = some (tid2, w2) →
      w2.responsive = true →
      ∀ lid data2, readFromSnapshot s.snapshotFiles keydata filename path
          (loadFromPath clientPath clientPath) none = .ok (lid, data2) →
        out = (updateWorker s tid2 data2, .ok ())) := by
  have hcl := resolveReadTarget_clients s (formerClientPath.map (fun cp => loadFromPath cp cp))
  simp only [readSnapshot] at hout
  split at hout
  next s1 e heq =>
    rw [heq] at hcl
    injection hout with hout2
    refine ⟨?_, ?_, ?_⟩
    · rw [← hout2]
      exact congrArg (List.map Prod.fst) hcl
    · intro hfp hgt
      subst hfp
      simp only [Option.map, resolveReadTarget, hgt] at heq
      obtain ⟨h1, h2⟩ := Prod.mk.injEq .. ▸ heq
      injection h2 with h3
      rw [← hout2, ← h1, ← h3]
    · intro hfp tid2 w2 hgt hw2 lid data2 hrd
      subst hfp
      simp [Option.map, resolveReadTarget, hgt] at heq
  next s1 tid w heq =>
    rw [heq] at hcl
    by_cases hk : keydata.length = 32
    · rw [if_pos hk] at hout
      split at hout
      next e heq2 =>
        injection hout with hout2
        refine ⟨?_, ?_, ?_⟩
        · rw [← hout2]
          exact congrArg (List.map Prod.fst) hcl
        · intro hfp hgt
          subst hfp
          simp [Option.map, resolveReadTarget, hgt] at heq
        · intro hfp tid2 w2 hgt hw2 lid data2 hrd
          subst hfp
          simp only [Option.map, resolveReadTarget, hgt] at heq
          obtain ⟨h1, h2⟩ := Prod.mk.injEq .. ▸ heq
          have hmn : (Option.map (fun cp => loadFromPath cp cp) (none : Option Bytes)) = none := rfl
          rw [← h1, hmn] at heq2
          rw [hrd] at heq2
          cases heq2
      next data1 heq2 =>
        split at hout
        next hwr =>
          injection hout with hout2
          refine ⟨?_, ?_, ?_⟩
          · rw [← hout2]
            show (updateWorker s1 tid data1).clients.map Prod.fst = s.clients.map Prod.fst
            simp only [updateWorker]
            rw [updateKey_keys]
            exact congrArg (List.map Prod.fst) hcl
          · intro hfp hgt
            subst hfp
            simp [Option.map, resolveReadTarget, hgt] at heq
          · intro hfp tid2 w2 hgt hw2 lid data2 hrd
            subst hfp
            simp only [Option.map, resolveReadTarget, hgt] at heq
            obtain ⟨h1, h2⟩ := Prod.mk.injEq .. ▸ heq
            injection h2 with h3
            injection h3 with h3a h3b
            have hmn : (Option.map (fun cp => loadFromPath cp cp) (none : Option Bytes)) = none :=
              rfl
            rw [← h1, hmn] at heq2
            rw [hrd] at heq2
            injection heq2 with heq3
            injection heq3 with h4 h5
            rw [← hout2, ← h1, ← h3a, ← h5]
        next hwr =>
          injection hout with hout2
          refine ⟨?_, ?_, ?_⟩
          · rw [← hout2]
            exact congrArg (List.map Prod.fst) hcl
          · intro hfp hgt
            subst hfp
            simp [Option.map, resolveReadTarget, hgt] at heq
          · intro hfp tid2 w2 hgt hw2 lid data2 hrd
            subst hfp
            simp only [Option.map, resolveReadTarget, hgt] at heq
            obtain ⟨h1, h2⟩ := Prod.mk.injEq .. ▸ heq
            injection h2 with h3
            injection h3 with h3a h3b
            rw [← h3b] at hwr
            exact absurd hw2 hwr
    · rw [if_neg hk] at hout
      cases hout

/-- Witness for C3 (amended): a concrete non-panicking read on a system
initialized for path 0. -/
theorem c3_read_snapshot_never_spawns_witness :
    readSnapshot c3WS [0] none key32 none none = .ret c3WOut ∧
    (c3WOut.1.clients.map Prod.fst = c3WS.clients.map Prod.fst ∧
      ((none : Option Bytes) = none → getTarget c3WS = none →
        c3WOut = (c3WS, .error .actorNotSpawned)) ∧
      ((none : Option Bytes) = none → ∀ tid2 w2, getTarget c3WS = some (tid2, w2) →
        w2.responsive = true →
        ∀ lid data2, readFromSnapshot c3WS.snapshotFiles key32 none none
            (loadFromPath [0] [0]) none = .ok (lid, data2) →
          c3WOut = (updateWorker c3WS tid2 data2, .ok ()))) :=
  ⟨by decide, c3_read_snapshot_never_spawns c3WS [0] none key32 none none c3WOut (by decide)⟩

/-- C7: when a former client path naming an already-spawned worker is supplied,
read_snapshot first switches the Registry target to the former identity, then
installs the decrypted sub-state into exactly that existing worker via reload —
the worker directory keeps the same identities, the former identity still maps
to the same worker with only its state replaced, and no fresh worker appears. -/
theorem c7_former_path_reuses_worker (s : SysState) (clientPath formerPath keydata : Bytes)
    (filename path : Option String) (w : Worker) (data : SecureClientState)
    (hfid : lookupKey s.clients (loadFromPath formerPath formerPath) = some w)
    (hresp : w.responsive = true) (hkey : keydata.length = 32)
    (hread : readFromSnapshot s.snapshotFiles keydata filename path
        (loadFromPath clientPath clientPath) (some (loadFromPath formerPath formerPath)) =
      .ok (loadFromPath formerPath formerPath, data)) :
    readSnapshot s clientPath (some formerPath) keydata filename path =
      .ret (updateWorker { s with target := some (loadFromPath formerPath formerPath) }
          (loadFromPath formerPath formerPath) data, .ok ()) ∧
    (updateWorker { s with target := some (loadFromPath formerPath formerPath) }
        (loadFromPath formerPath formerPath) data).target =
      some (loadFromPath formerPath formerPath) ∧
    lookupKey (updateWorker { s with target := some (loadFromPath formerPath formerPath) }
        (loadFromPath formerPath formerPath) data).clients
      (loadFromPath formerPath formerPath) = some { w with state := data } ∧
    (updateWorker { s with target := some (loadFromPath formerPath formerPath) }
        (loadFromPath formerPath formerPath) data).clients.map Prod.fst =
      s.clients.map Prod.fst := by
  refine ⟨?_, ?_, ?_, ?_⟩
  · simp [readSnapshot, resolveReadTarget, hfid, hkey, hread, hresp]
  · simp [updateWorker]
  · simp only [updateWorker]
    rw [lookupKey_updateKey_self]
    simp [hfid]
  · simp only [updateWorker]
    rw [updateKey_keys]

/-- Witness for C7: re-labelling the path-4 worker under path 9 with the
sub-state stored for path 4 in the snapshot file. -/
theorem c7_former_path_reuses_worker_witness :
    lookupKey c7S.clients (loadFromPath [4] [4]) = some Worker.fresh ∧
    Worker.fresh.responsive = true ∧ key32.length = 32 ∧
    readFromSnapshot c7S.snapshotFiles key32 none none (loadFromPath [9] [9])
      (some (loadFromPath [4] [4])) = .ok (loadFromPath [4] [4], c7Data) ∧
    (readSnapshot c7S [9] (some [4]) key32 none none =
        .ret (updateWorker { c7S with target := some (loadFromPath [4] [4]) }
            (loadFromPath [4] [4]) c7Data, .ok ()) ∧
      (updateWorker { c7S with target := some (loadFromPath [4] [4]) }
          (loadFromPath [4] [4]) c7Data).target = some (loadFromPath [4] [4]) ∧
      lookupKey (updateWorker { c7S with target := some (loadFromPath [4] [4]) }
          (loadFromPath [4] [4]) c7Data).clients (loadFromPath [4] [4]) =
        some { Worker.fresh with state := c7Data } ∧
      (updateWorker { c7S with target := some (loadFromPath [4] [4]) }
          (loadFromPath [4] [4]) c7Data).clients.map Prod.fst =
        c7S.clients.map Prod.fst) :=
  ⟨by decide, by decide, by decide, by decide,
    c7_former_path_reuses_worker c7S [9] [4] key32 none none Worker.fresh c7Data
      (by decide) (by decide) (by decide) (by decide)⟩

/-- C6 counterexample: on a literally fresh registry — no worker spawned yet —
over the disk produced by the two-client snapshot write, read_snapshot of A
fails with the not-spawned error and restores nothing, because without a
former path it resolves the current target, which does not exist. -/
theorem c6_fresh_registry_counterexample :
    readSnapshot c6FreshRaw c6PathA none key32 none none =
      .ret (c6FreshRaw, .error .actorNotSpawned) ∧
    lookupKey c6FreshRaw.clients c6IdA = none :=
  ⟨by decide, by decide⟩

/-- C6 (amended): after spawning A and B, writing distinct vault data to each
and writing all to a snapshot under key32, a fresh registry initialized for A
over that disk followed by read_snapshot of A with no former path and the same
key restores A s vault data exactly, while B has no worker — its state is
untouched — until B is also spawned and read. -/
theorem c6_round_trip_after_init (dA dB hA hB : Bytes) :
    c6SnapReply dA dB hA hB = some (.ok (), [c6IdA, c6IdB]) ∧
    c6RoundTrip dA dB hA hB = some (some (c6StateA dA hA), none, .ok ()) :=
  ⟨rfl, rfl⟩

end Stronghold
